import Mathlib

/-!
Verification of `scripts/openai_stream_benchmark.py` (sequential OpenAI
streaming availability benchmark).

The script is shallow-embedded below: Python strings become `String`
(operated on through their `List Char` data so everything kernel-reduces),
`json.loads` becomes a total fuel-based JSON parser returning
`Option JsonValue`, exceptions become `Except`/explicit error values, the
HTTP transport becomes an abstract per-request behaviour value, and wall
clock readings become explicit parameters.  Each definition mirrors the
corresponding Python function, keeping its name where Lean allows.
-/

namespace OpenAIBenchmark

/-! ### Python string primitives

Python `str` operations used by the script, modelled over `String.data`
(`List Char`) so they reduce in the kernel.  `str.strip()` is modelled over
ASCII whitespace (space, tab, CR, LF), which covers every string the script
manipulates.
-/

/-- The characters Python `str.strip()` removes (ASCII subset). -/
def pyIsSpace (c : Char) : Bool :=
  c == ' ' || c == '\t' || c == '\n' || c == '\r' || c == '\x0b' || c == '\x0c'

/-- Python `s.strip()`. -/
def pyStrip (s : String) : String :=
  String.mk (((s.data.dropWhile pyIsSpace).reverse.dropWhile pyIsSpace).reverse)

/-- Python `s.rstrip()`. -/
def pyRstrip (s : String) : String :=
  String.mk ((s.data.reverse.dropWhile pyIsSpace).reverse)

/-- Python `s.startswith(p)`. -/
def pyStartswith (s p : String) : Bool :=
  p.data.isPrefixOf s.data

/-- Python `s[n:]` (drop the first `n` characters). -/
def pyDropChars (s : String) (n : Nat) : String :=
  String.mk (s.data.drop n)

/-- Python `"sep".join`-style join with a newline separator. -/
def joinWithNewline : List String → String
  | [] => ""
  | [s] => s
  | s :: rest => s ++ "\n" ++ joinWithNewline rest

/-! ### JSON values and `json.loads`

`json.loads` as used by the stream parser.  A number is kept exactly as
`mantissa × 10^exp10` (the script only ever inspects the structure and
truthiness of decoded values, and such a number is zero iff its mantissa
is, so float rounding is irrelevant); the non-finite literals `NaN`,
`Infinity`, `-Infinity` that Python's decoder accepts are carried by
dedicated constructors.  Objects keep their members in source order; a
duplicated key is resolved to its last occurrence on lookup, matching
`dict` insertion overwrite.
-/

inductive JsonValue where
  | null
  | bool (b : Bool)
  | num (mantissa exp10 : Int)
  | nan
  | inf (neg : Bool)
  | str (s : String)
  | arr (elems : List JsonValue)
  | obj (fields : List (String × JsonValue))

/-- Lookup in a parsed object: the last binding of the key wins, matching
Python `dict` construction from a duplicated-key JSON object. -/
def objLookupLast (fields : List (String × JsonValue)) (key : String) :
    Option JsonValue :=
  match fields with
  | [] => none
  | (k, v) :: rest =>
    match objLookupLast rest key with
    | some r => some r
    | none => if k = key then some v else none

/-- Python truthiness (`bool(x)`) of a decoded JSON value. -/
def JsonValue.truthy : JsonValue → Bool
  | .null => false
  | .bool b => b
  | .num mantissa _ => mantissa != 0
  | .nan => true
  | .inf _ => true
  | .str s => s != ""
  | .arr elems => !elems.isEmpty
  | .obj fields => !fields.isEmpty

/-- Whether a decoded value is a JSON object (a Python `dict`). -/
def JsonValue.isObj : JsonValue → Bool
  | .obj _ => true
  | _ => false

/-- JSON whitespace as accepted by Python's decoder. -/
def jsonWs (c : Char) : Bool :=
  c == ' ' || c == '\t' || c == '\n' || c == '\r'

def isJsonDigit (c : Char) : Bool :=
  '0' ≤ c && c ≤ '9'

def hexDigitVal (c : Char) : Option Nat :=
  if '0' ≤ c ∧ c ≤ '9' then some (c.toNat - '0'.toNat)
  else if 'a' ≤ c ∧ c ≤ 'f' then some (c.toNat - 'a'.toNat + 10)
  else if 'A' ≤ c ∧ c ≤ 'F' then some (c.toNat - 'A'.toNat + 10)
  else none

/-- Turn a `\uXXXX` code unit (or a combined surrogate pair) into a `Char`;
an unpaired surrogate falls back to U+FFFD (Lean `Char` holds scalars only,
a corner Python tolerates that never arises here). -/
def charOfCode (n : Nat) : Char :=
  if n < 0xd800 ∨ (0xe000 ≤ n ∧ n < 0x110000) then
    Char.ofNat n
  else
    Char.ofNat 0xfffd

def digitsToNat (ds : List Char) : Nat :=
  ds.foldl (fun acc c => acc * 10 + (c.toNat - '0'.toNat)) 0

/-- Parse the body of a JSON string after the opening quote, accumulating
into `acc` (reversed). Returns the decoded string and the rest of the
input. Bare control characters are rejected, as in Python's strict mode.
Every step consumes at least one input character, so fuel
`input length + 1` always suffices; fuel keeps the recursion structural. -/
def parseJStringAux : Nat → List Char → List Char → Option (String × List Char)
  | 0, _, _ => none
  | _ + 1, _, [] => none
  | _ + 1, acc, '"' :: rest => some (String.mk acc.reverse, rest)
  | fuel + 1, acc, '\\' :: esc =>
    match esc with
    | '"' :: rest => parseJStringAux fuel ('"' :: acc) rest
    | '\\' :: rest => parseJStringAux fuel ('\\' :: acc) rest
    | '/' :: rest => parseJStringAux fuel ('/' :: acc) rest
    | 'b' :: rest => parseJStringAux fuel ('\x08' :: acc) rest
    | 'f' :: rest => parseJStringAux fuel ('\x0c' :: acc) rest
    | 'n' :: rest => parseJStringAux fuel ('\n' :: acc) rest
    | 'r' :: rest => parseJStringAux fuel ('\r' :: acc) rest
    | 't' :: rest => parseJStringAux fuel ('\t' :: acc) rest
    | 'u' :: h1 :: h2 :: h3 :: h4 :: rest =>
      match hexDigitVal h1, hexDigitVal h2, hexDigitVal h3, hexDigitVal h4 with
      | some a, some b, some c, some d =>
        let hi := ((a * 16 + b) * 16 + c) * 16 + d
        if 0xd800 ≤ hi ∧ hi ≤ 0xdbff then
          match rest with
          | '\\' :: 'u' :: k1 :: k2 :: k3 :: k4 :: rest2 =>
            match hexDigitVal k1, hexDigitVal k2, hexDigitVal k3, hexDigitVal k4 with
            | some a2, some b2, some c2, some d2 =>
              let lo := ((a2 * 16 + b2) * 16 + c2) * 16 + d2
              if 0xdc00 ≤ lo ∧ lo ≤ 0xdfff then
                parseJStringAux fuel
                  (charOfCode (0x10000 + (hi - 0xd800) * 0x400 + (lo - 0xdc00)) :: acc) rest2
              else parseJStringAux fuel (charOfCode hi :: acc) rest
            | _, _, _, _ => parseJStringAux fuel (charOfCode hi :: acc) rest
          | _ => parseJStringAux fuel (charOfCode hi :: acc) rest
        else parseJStringAux fuel (charOfCode hi :: acc) rest
      | _, _, _, _ => none
    | _ => none
  | fuel + 1, acc, c :: rest =>
    if c.toNat < 0x20 then none else parseJStringAux fuel (c :: acc) rest

/-- Parse a JSON number (strict RFC 8259 grammar, the one Python's decoder
uses for finite numbers) into an exact rational. -/
def parseJNumber (cs : List Char) : Option (JsonValue × List Char) :=
  let (neg, cs1) := match cs with
    | '-' :: rest => (true, rest)
    | _ => (false, cs)
  let (intDs, cs2) := cs1.span isJsonDigit
  if intDs = [] then none
  else if intDs.length > 1 ∧ intDs.head? = some '0' then none
  else
    let (fracDs, cs3) := match cs2 with
      | '.' :: rest =>
        let (ds, r) := rest.span isJsonDigit
        (ds, r)
      | _ => ([], cs2)
    if cs2 ≠ [] ∧ cs2.head? = some '.' ∧ fracDs = [] then none
    else
      let parseExp : Option (Int × List Char) := match cs3 with
        | 'e' :: rest | 'E' :: rest =>
          let (esign, rest2) := match rest with
            | '+' :: r => ((1 : Int), r)
            | '-' :: r => ((-1 : Int), r)
            | _ => ((1 : Int), rest)
          let (eds, rest3) := rest2.span isJsonDigit
          if eds = [] then none else some (esign * (digitsToNat eds : Int), rest3)
        | _ => some (0, cs3)
      match parseExp with
      | none => none
      | some (e, cs4) =>
        let mant : Int := digitsToNat (intDs ++ fracDs)
        some (.num (if neg then -mant else mant) (e - (fracDs.length : Int)), cs4)

/-- Parsing mode: a single fuel-indexed function covers values and the
element/member loops of arrays and objects, so the recursion is structural
on the fuel and kernel-reducible. -/
inductive JMode where
  | value
  | arrItems (acc : List JsonValue)
  | objItems (acc : List (String × JsonValue))

/-- The core of `json.loads`: parse one value (or continue an array/object
body) from the input, returning the value and the unconsumed rest. -/
def jp : Nat → JMode → List Char → Option (JsonValue × List Char)
  | 0, _, _ => none
  | fuel + 1, .value, cs0 =>
    let cs := cs0.dropWhile jsonWs
    match cs with
    | 'n' :: 'u' :: 'l' :: 'l' :: rest => some (.null, rest)
    | 't' :: 'r' :: 'u' :: 'e' :: rest => some (.bool true, rest)
    | 'f' :: 'a' :: 'l' :: 's' :: 'e' :: rest => some (.bool false, rest)
    | 'N' :: 'a' :: 'N' :: rest => some (.nan, rest)
    | 'I' :: 'n' :: 'f' :: 'i' :: 'n' :: 'i' :: 't' :: 'y' :: rest => some (.inf false, rest)
    | '-' :: 'I' :: 'n' :: 'f' :: 'i' :: 'n' :: 'i' :: 't' :: 'y' :: rest => some (.inf true, rest)
    | '"' :: rest => (parseJStringAux (rest.length + 1) [] rest).map (fun p => (.str p.1, p.2))
    | '[' :: rest =>
      match rest.dropWhile jsonWs with
      | ']' :: rest2 => some (.arr [], rest2)
      | _ => jp fuel (.arrItems []) rest
    | '\x7b' :: rest =>
      match rest.dropWhile jsonWs with
      | '\x7d' :: rest2 => some (.obj [], rest2)
      | _ => jp fuel (.objItems []) rest
    | _ => parseJNumber cs
  | fuel + 1, .arrItems acc, cs =>
    match jp fuel .value cs with
    | none => none
    | some (v, rest) =>
      match rest.dropWhile jsonWs with
      | ',' :: rest2 => jp fuel (.arrItems (acc ++ [v])) rest2
      | ']' :: rest2 => some (.arr (acc ++ [v]), rest2)
      | _ => none
  | fuel + 1, .objItems acc, cs =>
    match cs.dropWhile jsonWs with
    | '"' :: rest =>
      match parseJStringAux (rest.length + 1) [] rest with
      | none => none
      | some (k, rest2) =>
        match rest2.dropWhile jsonWs with
        | ':' :: rest3 =>
          match jp fuel .value rest3 with
          | none => none
          | some (v, rest4) =>
            match rest4.dropWhile jsonWs with
            | ',' :: rest5 => jp fuel (.objItems (acc ++ [(k, v)])) rest5
            | '\x7d' :: rest5 => some (.obj (acc ++ [(k, v)]), rest5)
            | _ => none
        | _ => none
    | _ => none

/-- `json.loads(s)`: parse the whole string as one JSON document; any
leftover non-whitespace (or any syntax error) is a decode failure, which
the script observes as `json.JSONDecodeError`. -/
def json_loads (s : String) : Option JsonValue :=
  match jp (2 * s.data.length + 4) .value s.data with
  | none => none
  | some (v, rest) => if rest.dropWhile jsonWs = [] then some v else none

end OpenAIBenchmark

namespace OpenAIBenchmark

/-! ### Exceptions and the SSE stream decoder (`parse_sse_stream`)

Python exceptions that can cross `parse_sse_stream` or `urlopen` are
modelled as values.  Only the classification the `except` clauses of
`run_single_request` perform matters for the result, so a kind plus a
message suffices; the messages approximate CPython wording without the
quote characters.
-/

/-- How an exception is matched by the `except` clauses of
`run_single_request`: `urlOrTimeout` is caught by the
`(error.URLError, socket.timeout, TimeoutError)` clause, everything else
modelled here falls to the bare `except Exception` clause. -/
inductive PyExcKind where
  | jsonDecode
  | urlOrTimeout
  | other
deriving Repr, DecidableEq

structure PyErr where
  kind : PyExcKind
  msg : String
deriving Repr, DecidableEq

/-- `AttributeError` from calling `.get` on a non-`dict` decoded value. -/
def pyAttrGetErr : PyErr := ⟨.other, "AttributeError: object has no attribute get"⟩

/-- `IndexError` from `choices[0]` on an empty list (unreachable behind the
truthiness guard, kept for faithfulness of the indexing model). -/
def pyIndexErr : PyErr := ⟨.other, "IndexError: list index out of range"⟩

/-- `KeyError` from `choices[0]` when `choices` decoded to a `dict`. -/
def pyKeyErr : PyErr := ⟨.other, "KeyError: 0"⟩

/-- `TypeError` from `choices[0]` on a non-subscriptable value. -/
def pySubscriptErr : PyErr := ⟨.other, "TypeError: object is not subscriptable"⟩

/-- What one iteration of the `while True` loop of `parse_sse_stream` does
with the line it read, mirroring the branch order of the source: the
EOF test (`if not line`), the `data:` prefix test, the `[DONE]` sentinel,
`json.loads` with `JSONDecodeError` skipped, the `choices` truthiness
guard, then `choices[0].get("delta", \x7b\x7d).get("content")`, where calling
`.get` on a non-`dict` (or indexing a non-list) raises.  A `str` `choices`
is indexable, but `.get` on the resulting one-character `str` then raises,
so it collapses to the same raise. -/
inductive LineStep where
  | eof
  | done
  | skip
  | token (s : String)
  | raise (e : PyErr)
deriving Repr, DecidableEq

def line_step (line : String) : LineStep :=
  if line = "" then .eof
  else
    let decoded := pyStrip line
    if ¬ pyStartswith decoded "data:" then .skip
    else
      let data := pyStrip (pyDropChars decoded 5)
      if data = "[DONE]" then .done
      else
        match json_loads data with
        | none => .skip
        | some payload =>
          match payload with
          | .obj fields =>
            let choices := (objLookupLast fields "choices").getD (.arr [])
            if ¬ choices.truthy then .skip
            else
              match choices with
              | .arr [] => .raise pyIndexErr
              | .arr (first :: _) =>
                match first with
                | .obj ff =>
                  let delta := (objLookupLast ff "delta").getD (.obj [])
                  match delta with
                  | .obj df =>
                    match (objLookupLast df "content").getD .null with
                    | .str s => if s = "" then .skip else .token s
                    | _ => .skip
                  | _ => .raise pyAttrGetErr
                | _ => .raise pyAttrGetErr
              | .str _ => .raise pyAttrGetErr
              | .obj _ => .raise pyKeyErr
              | _ => .raise pySubscriptErr
          | _ => .raise pyAttrGetErr

/-- The line source of one response body: the decoded lines `readline`
delivers, then either EOF (`tailErr = none`) or an exception raised by the
next read (e.g. a socket timeout mid-stream). -/
structure SseBody where
  lines : List String
  tailErr : Option PyErr := none

/-- The loop of `parse_sse_stream` over the remaining lines: tokens are
accumulated (joined at the end in the source, built by appending here),
`[DONE]` or an empty read ends the decode with the text so far...
the text built so far is returned by the caller-side `map`, matching
`"".join(full_text)`. -/
def parse_sse_lines (tailErr : Option PyErr) : List String → Except PyErr String
  | [] =>
    match tailErr with
    | none => .ok ""
    | some e => .error e
  | l :: rest =>
    match line_step l with
    | .eof => .ok ""
    | .done => .ok ""
    | .skip => parse_sse_lines tailErr rest
    | .token s => (parse_sse_lines tailErr rest).map (fun t => s ++ t)
    | .raise e => .error e

/-- `parse_sse_stream(response)`: decode the whole body. -/
def parse_sse_stream (b : SseBody) : Except PyErr String :=
  parse_sse_lines b.tailErr b.lines

/-! #### Spec-side decode (for the refinement claim)

These definitions follow the words of the specification, not the code:
the decoded text is "the concatenation, in arrival order, of every
non-empty `choices[0].delta.content` string carried by a well-formed
`data:` frame that precedes the `[DONE]` sentinel or end of input".
-/

/-- Spec reading of one line: the non-empty `choices[0].delta.content`
string of a well-formed `data:` frame, if the line is one. -/
def spec_frame_token (line : String) : Option String :=
  let t := pyStrip line
  if pyStartswith t "data:" then
    match json_loads (pyStrip (pyDropChars t 5)) with
    | some (.obj fields) =>
      match objLookupLast fields "choices" with
      | some (.arr (.obj ff :: _)) =>
        match objLookupLast ff "delta" with
        | some (.obj df) =>
          match objLookupLast df "content" with
          | some (.str s) => if s = "" then none else some s
          | _ => none
        | _ => none
      | _ => none
    | _ => none
  else none

/-- Spec reading of stream end: the `[DONE]` sentinel frame, or an empty
read (how a byte-line source presents end of input). -/
def spec_line_ends_stream (line : String) : Bool :=
  line == "" ||
    (pyStartswith (pyStrip line) "data:" &&
      pyStrip (pyDropChars (pyStrip line) 5) == "[DONE]")

/-- The spec contract: concatenation of the frame tokens that precede the
end of the stream. -/
def spec_decoded_text : List String → String
  | [] => ""
  | l :: rest =>
    if spec_line_ends_stream l then ""
    else ((spec_frame_token l).getD "") ++ spec_decoded_text rest

/-! ### The request executor (`run_single_request`)

The HTTP transport is abstracted into the behaviour the script can
observe for one request: `urlopen` returns a response (with a status, an
error body for `resp.read()`, and an SSE body), or raises
`error.HTTPError`, a transport-level error (`error.URLError`,
`socket.timeout`, `TimeoutError`), or some other exception.  Each
behaviour carries the elapsed wall-clock duration `perf_counter` measures
at the point the outcome is recorded.  The request body and headers the
source builds only affect the outside world, so they have no bearing on
the returned `RequestResult` and are not part of the state.
-/

inductive TransportBehavior where
  | response (status : Nat) (errBody : String) (body : SseBody) (duration : ℚ)
  | httpExc (code : Nat) (body : String) (duration : ℚ)
  | netExc (msg : String) (duration : ℚ)
  | otherExc (msg : String) (duration : ℚ)

/-- The elapsed duration recorded for the behaviour. -/
def TransportBehavior.elapsed : TransportBehavior → ℚ
  | .response _ _ _ d => d
  | .httpExc _ _ d => d
  | .netExc _ d => d
  | .otherExc _ d => d

/-- The dict `run_single_request` returns. -/
structure RequestResult where
  index : Nat
  ok : Bool
  duration : ℚ
  chars : Nat
  error : String
deriving Repr, DecidableEq

/-- `run_single_request`: one request/response cycle.  A non-200 status on
a returned response raises `RuntimeError("HTTP <status>: <body>")`, which
only the bare `except Exception` clause catches; `error.HTTPError` is
caught by its own clause; transport errors by theirs; everything else by
the bare clause.  `total` is used only in progress prints. -/
def run_single_request (idx total : Nat) (b : TransportBehavior) : RequestResult :=
  match b with
  | .response status errBody body duration =>
    if status ≠ 200 then
      ⟨idx, false, duration, 0, "Unexpected error: " ++ ("HTTP " ++ toString status ++ ": " ++ errBody)⟩
    else
      match parse_sse_stream body with
      | .ok response_text => ⟨idx, true, duration, response_text.length, ""⟩
      | .error e =>
        match e.kind with
        | .urlOrTimeout => ⟨idx, false, duration, 0, "Network/Timeout error: " ++ e.msg⟩
        | _ => ⟨idx, false, duration, 0, "Unexpected error: " ++ e.msg⟩
  | .httpExc code body duration =>
    ⟨idx, false, duration, 0, "HTTPError " ++ toString code ++ ": " ++ body⟩
  | .netExc msg duration =>
    ⟨idx, false, duration, 0, "Network/Timeout error: " ++ msg⟩
  | .otherExc msg duration =>
    ⟨idx, false, duration, 0, "Unexpected error: " ++ msg⟩

/-! ### Configuration resolution (`env_str`, `env_int`, `env_float`)

The environment is a partial map from variable names to values.  Python
`int(...)`/`float(...)` on the finite decimal forms are modelled exactly
(including `int` underscore grouping); the non-finite float literals and
float underscore grouping are corner cases no setting of this script
meaningfully uses and are treated as parse failures.
-/

structure Env where
  get : String → Option String

def env_str (env : Env) (name : String) (default : Option String := none)
    (required : Bool := false) : Except String String :=
  let value : Option String :=
    match env.get name with
    | some v => some v
    | none => default
  if required ∧ (value = none ∨ value = some "") then
    .error ("Missing required environment variable: " ++ name)
  else
    .ok (value.getD "")

/-- Digit run with optional single underscores between digits
(`int("1_0")` is legal, `int("_1")`, `int("1_")`, `int("1__0")` are not). -/
def intDigitsTail : List Char → Bool
  | [] => true
  | '_' :: rest =>
    match rest with
    | c :: rest2 => isJsonDigit c && intDigitsTail rest2
    | [] => false
  | c :: rest => isJsonDigit c && intDigitsTail rest

def intDigitsValid : List Char → Bool
  | [] => false
  | c :: rest => isJsonDigit c && intDigitsTail rest

/-- Python `int(s)` on a decimal string. -/
def pyParseInt (s : String) : Option Int :=
  let cs := (pyStrip s).data
  let signAndRest : Bool × List Char :=
    match cs with
    | '+' :: rest => (false, rest)
    | '-' :: rest => (true, rest)
    | _ => (false, cs)
  if intDigitsValid signAndRest.2 then
    let v : Int := digitsToNat (signAndRest.2.filter isJsonDigit)
    some (if signAndRest.1 then -v else v)
  else none

/-- Python `float(s)` on a finite decimal string, as an exact rational. -/
def pyParseFloat (s : String) : Option ℚ :=
  let cs := (pyStrip s).data
  let signAndRest : Bool × List Char :=
    match cs with
    | '+' :: rest => (false, rest)
    | '-' :: rest => (true, rest)
    | _ => (false, cs)
  let (intDs, cs2) := signAndRest.2.span isJsonDigit
  let fracAndRest : List Char × List Char :=
    match cs2 with
    | '.' :: rest => rest.span isJsonDigit
    | _ => ([], cs2)
  if intDs = [] ∧ fracAndRest.1 = [] then none
  else
    let expAndRest : Option (Int × List Char) :=
      match fracAndRest.2 with
      | 'e' :: rest | 'E' :: rest =>
        let signedRest : Int × List Char :=
          match rest with
          | '+' :: r => (1, r)
          | '-' :: r => (-1, r)
          | _ => (1, rest)
        let (eds, rest3) := signedRest.2.span isJsonDigit
        if eds = [] then none else some (signedRest.1 * (digitsToNat eds : Int), rest3)
      | _ => some (0, fracAndRest.2)
    match expAndRest with
    | none => none
    | some (e, rest4) =>
      if rest4 ≠ [] then none
      else
        let mant : ℚ := (digitsToNat (intDs ++ fracAndRest.1) : ℚ) / ((10 : ℚ) ^ fracAndRest.1.length)
        let scaled : ℚ := if 0 ≤ e then mant * (10 : ℚ) ^ e.toNat else mant / (10 : ℚ) ^ (-e).toNat
        some (if signAndRest.1 then -scaled else scaled)

def env_int (env : Env) (name : String) (default : Int) : Except String Int :=
  match env.get name with
  | none => .ok default
  | some v =>
    if v = "" then .ok default
    else
      match pyParseInt v with
      | some i => .ok i
      | none => .error (name ++ " must be an integer, got: " ++ v)

def env_float (env : Env) (name : String) (default : ℚ) : Except String ℚ :=
  match env.get name with
  | none => .ok default
  | some v =>
    if v = "" then .ok default
    else
      match pyParseFloat v with
      | some q => .ok q
      | none => .error (name ++ " must be a number, got: " ++ v)

/-! ### `main`: configuration, benchmark loop, summary -/

structure RunConfig where
  api_url : String
  api_key : String
  model : String
  prompt : String
  request_count : Int
  timeout_seconds : Int
  max_runtime_seconds : Int
  max_tokens : Int
  pause_seconds : ℚ
  temperature : ℚ
deriving Repr, DecidableEq

/-- The sequence of environment reads at the top of the `try` block of
`main`, in source order (the first one that raises `ValueError` wins). -/
def readConfig (env : Env) : Except String RunConfig := do
  let api_url ← env_str env "OPENAI_API_URL" (some "https://api.openai.com/v1/chat/completions")
  let api_key ← env_str env "OPENAI_API_KEY" none true
  let model ← env_str env "OPENAI_MODEL" (some "gpt-4o-mini")
  let prompt ← env_str env "OPENAI_PROMPT" (some "请简单回复：服务可用。")
  let request_count ← env_int env "OPENAI_REQUEST_COUNT" 5
  let timeout_seconds ← env_int env "OPENAI_REQUEST_TIMEOUT_SECONDS" 120
  let max_runtime_seconds ← env_int env "OPENAI_MAX_RUNTIME_SECONDS" 0
  let max_tokens ← env_int env "OPENAI_MAX_TOKENS" 128
  let pause_seconds ← env_float env "OPENAI_REQUEST_PAUSE_SECONDS" 0
  let temperature ← env_float env "OPENAI_TEMPERATURE" (1 / 10)
  return ⟨api_url, api_key, model, prompt, request_count, timeout_seconds,
    max_runtime_seconds, max_tokens, pause_seconds, temperature⟩

/-- The validation `if`s that follow the reads, in source order. -/
def validateConfig (c : RunConfig) : Except String RunConfig :=
  if c.request_count ≤ 0 then .error "OPENAI_REQUEST_COUNT must be > 0"
  else if c.timeout_seconds ≤ 0 then .error "OPENAI_REQUEST_TIMEOUT_SECONDS must be > 0"
  else if c.max_tokens ≤ 0 then .error "OPENAI_MAX_TOKENS must be > 0"
  else if c.max_runtime_seconds < 0 then .error "OPENAI_MAX_RUNTIME_SECONDS must be >= 0"
  else if c.pause_seconds < 0 then .error "OPENAI_REQUEST_PAUSE_SECONDS must be >= 0"
  else .ok c

def resolveConfig (env : Env) : Except String RunConfig := do
  let c ← readConfig env
  validateConfig c

/-- The `for idx in range(1, request_count + 1)` loop: before each request
the elapsed wall time is read (`elapsedAt idx`); a configured (`> 0`) and
met-or-exceeded budget breaks out, otherwise the request runs and its
result is appended.  The inter-request `time.sleep` has no observable
effect here.  Fuel `request_count + 1` covers every iteration; the
recursion stays structural so results evaluate in the kernel. -/
def benchLoopAux (max_runtime : Int) (elapsedAt : Nat → ℚ)
    (behave : Nat → TransportBehavior) (request_count : Nat) :
    Nat → Nat → List RequestResult
  | 0, _ => []
  | fuel + 1, idx =>
    if request_count < idx then []
    else if 0 < max_runtime ∧ (max_runtime : ℚ) ≤ elapsedAt idx then []
    else
      run_single_request idx request_count (behave idx) ::
        benchLoopAux max_runtime elapsedAt behave request_count fuel (idx + 1)

def benchLoop (request_count : Nat) (max_runtime : Int) (elapsedAt : Nat → ℚ)
    (behave : Nat → TransportBehavior) : List RequestResult :=
  benchLoopAux max_runtime elapsedAt behave request_count (request_count + 1) 1

/-- The observable outcome of `main`: terminal status, process exit code,
and the summary counts over the result sequence. -/
structure MainOut where
  status : String
  exit_code : Int
  results : List RequestResult
  attempted : Nat
  success_count : Nat
  failure_count : Nat
  error_message : String
deriving Repr, DecidableEq

/-- `main`, over an abstract environment, wall clock and transport.  A
`ValueError` during configuration becomes `CONFIG_ERROR`/exit 2 before any
request runs; otherwise the loop executes and the summary counts and
terminal status are computed exactly as in the source (`success_count`
is the number of `ok` results, `failure_count` the rest). -/
def main (env : Env) (elapsedAt : Nat → ℚ) (behave : Nat → TransportBehavior) :
    MainOut :=
  match resolveConfig env with
  | .error msg => ⟨"CONFIG_ERROR", 2, [], 0, 0, 0, msg⟩
  | .ok cfg =>
    let results := benchLoop cfg.request_count.toNat cfg.max_runtime_seconds elapsedAt behave
    let attempted := results.length
    let success_count := (results.filter (fun r => r.ok)).length
    let failure_count := attempted - success_count
    if attempted = 0 then
      ⟨"FAILED", 1, results, attempted, success_count, failure_count, "No request attempted."⟩
    else if success_count = 0 then
      ⟨"FAILED", 1, results, attempted, success_count, failure_count, "All requests failed."⟩
    else if 0 < failure_count then
      ⟨"PARTIAL_SUCCESS", 0, results, attempted, success_count, failure_count, ""⟩
    else
      ⟨"SUCCESS", 0, results, attempted, success_count, failure_count, ""⟩

/-! ### README persistence (`update_readme_tail`)

`re.sub(re.escape(START) + ".*?" + re.escape(END) + "\n?", "", content,
flags=DOTALL)` removes, left to right, every span from an occurrence of
the start marker through the nearest following end marker (non-greedy)
plus one following newline if present; scanning resumes after the removed
span.  The remainder is `rstrip`ped and the freshly wrapped block is
appended after a blank line.
-/

def README_RESULT_START : String := "<!-- OPENAI_BENCHMARK_RESULTS_START -->"
def README_RESULT_END : String := "<!-- OPENAI_BENCHMARK_RESULTS_END -->"

/-- Index of the first occurrence of `pat` in the input, if any. -/
def findSubIdx (pat : List Char) : List Char → Option Nat
  | [] => if pat.isPrefixOf ([] : List Char) then some 0 else none
  | c :: cs =>
    if pat.isPrefixOf (c :: cs) then some 0
    else (findSubIdx pat cs).map (· + 1)

/-- One leftmost regex match: the text before it and the text after it
(after also consuming the optional trailing newline).  `none` when the
pattern matches nowhere: any match must begin at a start-marker
occurrence, and the end marker must occur after the leftmost one. -/
def removeOnce (cs : List Char) : Option (List Char × List Char) :=
  match findSubIdx README_RESULT_START.data cs with
  | none => none
  | some i =>
    let rest := cs.drop (i + README_RESULT_START.data.length)
    match findSubIdx README_RESULT_END.data rest with
    | none => none
    | some j =>
      let after := rest.drop (j + README_RESULT_END.data.length)
      let after2 : List Char :=
        match after with
        | '
' :: t => t
        | _ => after
      some (cs.take i, after2)

/-- All matches, left to right (`re.sub` with empty replacement).  Each
match consumes both markers, so fuel `input length + 1` covers every
round. -/
def removeAllAux : Nat → List Char → List Char
  | 0, cs => cs
  | fuel + 1, cs =>
    match removeOnce cs with
    | none => cs
    | some (pre, rem) => pre ++ removeAllAux fuel rem

/-- `update_readme_tail` on the document content (the file read/write
around it is I/O): drop every old delimited block, `rstrip` the
remainder, and append a blank line plus the freshly wrapped report. -/
def update_readme_tail (content : String) (report_lines : List String) : String :=
  let block :=
    README_RESULT_START ++ "
" ++ pyStrip (joinWithNewline report_lines) ++ "
" ++
      README_RESULT_END ++ "
"
  let content_without_old :=
    pyRstrip (String.mk (removeAllAux (content.data.length + 1) content.data))
  content_without_old ++ "

" ++ block

end OpenAIBenchmark

namespace OpenAIBenchmark

/-! ### Auxiliary definitions used by the statements below -/

/-- Python `s.endswith(p)`. -/
def pyEndswith (s p : String) : Bool :=
  p.data.isSuffixOf s.data

/-- A behaviour on which the executor reports success: a 200 response whose
body decodes without an exception. -/
def TransportBehavior.succeeds : TransportBehavior → Prop
  | .response status _ body _ => status = 200 ∧ ∃ t, parse_sse_stream body = .ok t
  | _ => False

/-- The worked SSE frame from the specification:
`data: \x7b"choices":[\x7b"delta":\x7b"content":"Hi"\x7d\x7d]\x7d`. -/
def exampleHiLine : String :=
  "data: \x7b\"choices\":[\x7b\"delta\":\x7b\"content\":\"Hi\"\x7d\x7d]\x7d"

/-- An environment with no variables set. -/
def envNoVars : Env := ⟨fun _ => none⟩

/-- An environment with only the credential set. -/
def envKeyOnly : Env := ⟨fun n => if n = "OPENAI_API_KEY" then some "k" else none⟩

/-- An environment that sets the model name to the empty string. -/
def envEmptyModel : Env := ⟨fun n => if n = "OPENAI_MODEL" then some "" else none⟩

/-- A wall clock reading 0 at every request boundary. -/
def zeroClock : Nat → ℚ := fun _ => 0

/-- A wall clock under which requests 1 and 2 start before the 5-second
budget has elapsed and every later boundary reads 10 seconds. -/
def clockStopsAfterTwo : Nat → ℚ := fun i => if i ≤ 2 then 0 else 10

/-- A transport on which every request fails with an HTTP 500. -/
def alwaysHttp500 : Nat → TransportBehavior := fun _ => .httpExc 500 "x" 1

/-- A document whose delimited region sits between a heading and a tail. -/
def cexDoc : String :=
  "A\n" ++ README_RESULT_START ++ "\nold\n" ++ README_RESULT_END ++ "\nTail\n"

end OpenAIBenchmark

namespace OpenAIBenchmark

/-! ### Basic lemmas -/

/-- Appending to the right keeps the character data non-empty. -/
theorem data_append_ne_nil {a : String} (ha : a.data ≠ []) (b : String) :
    (a ++ b).data ≠ [] := by
  rw [String.data_append]
  intro h
  exact ha (List.append_eq_nil.mp h).1

/-- A string with a non-empty left part is non-empty after appending. -/
theorem append_left_ne_empty {s t : String} (h : s.data ≠ []) : s ++ t ≠ "" := by
  intro he
  apply h
  have hd : (s ++ t).data = ([] : List Char) := congrArg String.data he
  rw [String.data_append] at hd
  exact (List.append_eq_nil.mp hd).1

/-- A non-required `env_str` read never fails. -/
theorem env_str_not_required (env : Env) (name : String) (d : Option String) :
    env_str env name d false =
      .ok ((match env.get name with | some v => some v | none => d).getD "") := by
  simp [env_str]

/-- `run_single_request` stamps the result with the request index. -/
theorem run_single_request_index (idx total : Nat) (b : TransportBehavior) :
    (run_single_request idx total b).index = idx := by
  cases b with
  | response status errBody body dur =>
    simp only [run_single_request]
    split
    · rfl
    · cases parse_sse_stream body with
      | ok t => rfl
      | error e =>
        obtain ⟨k, m⟩ := e
        cases k <;> rfl
  | httpExc code body dur => rfl
  | netExc msg dur => rfl
  | otherExc msg dur => rfl

/-! ### C9: string-setting defaults -/

/-- C9 counterexample: with `OPENAI_MODEL` set to the empty string the
resolver returns the empty string, not the documented default, so the
claim that string settings fall back to the default when the variable is
empty is false. -/
theorem env_str_empty_not_default_cex :
    env_str envEmptyModel "OPENAI_MODEL" (some "gpt-4o-mini") false ≠ .ok "gpt-4o-mini" := by
  simp [env_str, envEmptyModel]

/-- C9 (amended): a string setting with a documented default resolves to
the literal default when the variable is absent, and to the empty string
(not the default) when the variable is set to the empty string. -/
theorem env_str_default_behavior (env : Env) (name d : String) :
    (env.get name = none → env_str env name (some d) false = .ok d) ∧
    (env.get name = some "" → env_str env name (some d) false = .ok "") := by
  constructor <;> intro h <;> simp [env_str, h]

/-- C9 witness at concrete environments. -/
theorem env_str_default_behavior_witness :
    env_str envNoVars "OPENAI_MODEL" (some "gpt-4o-mini") false = .ok "gpt-4o-mini" ∧
    env_str envEmptyModel "OPENAI_MODEL" (some "gpt-4o-mini") false = .ok "" :=
  ⟨(env_str_default_behavior envNoVars "OPENAI_MODEL" "gpt-4o-mini").1 rfl,
   (env_str_default_behavior envEmptyModel "OPENAI_MODEL" "gpt-4o-mini").2 (by decide)⟩

/-! ### C8: message shape for non-success HTTP statuses -/

/-- C8 counterexample: no failure path yields the message
`HTTP <status>: <body>`: the `error.HTTPError` path prefixes `HTTPError`,
and a returned response with a non-200 status is reported through the
bare handler as `Unexpected error: HTTP <status>: <body>`. -/
theorem protocol_error_message_cex :
    (run_single_request 1 5 (.httpExc 500 "oops" 1)).error ≠ "HTTP 500: oops" ∧
    (run_single_request 1 5 (.response 500 "oops" ⟨[], none⟩ 1)).error ≠ "HTTP 500: oops" := by
  decide

/-- C8 (amended): a non-success status surfaced as `error.HTTPError` yields
a failed result with message `HTTPError <status>: <body>` (a prefix shared
with neither the transport nor the bare handler), while a returned
response object with a status other than 200 has its body read and is
reported as `Unexpected error: HTTP <status>: <body>`. -/
theorem http_error_messages (idx total code : Nat) (body : String) (d : ℚ)
    (status : Nat) (errBody : String) (sse : SseBody) (h : status ≠ 200) :
    run_single_request idx total (.httpExc code body d) =
      ⟨idx, false, d, 0, "HTTPError " ++ toString code ++ ": " ++ body⟩ ∧
    run_single_request idx total (.response status errBody sse d) =
      ⟨idx, false, d, 0, "Unexpected error: " ++ ("HTTP " ++ toString status ++ ": " ++ errBody)⟩ := by
  refine ⟨rfl, ?_⟩
  simp [run_single_request, h]

/-- C8 witness at a concrete 404/500 pair. -/
theorem http_error_messages_witness :
    run_single_request 1 5 (.httpExc 404 "nf" 1) = ⟨1, false, 1, 0, "HTTPError 404: nf"⟩ ∧
    run_single_request 1 5 (.response 500 "oops" ⟨[], none⟩ 1) =
      ⟨1, false, 1, 0, "Unexpected error: HTTP 500: oops"⟩ := by
  have h := http_error_messages 1 5 404 "nf" 1 500 "oops" ⟨[], none⟩ (by decide)
  exact ⟨h.1.trans (by decide), h.2.trans (by decide)⟩


/-! ### C6: missing credential -/

/-- C6: with the credential absent or empty the run resolves to
`CONFIG_ERROR` with exit code 2 and an empty result sequence — no request
is ever attempted. -/
theorem missing_credential_config_error (env : Env) (elapsedAt : Nat → ℚ)
    (behave : Nat → TransportBehavior)
    (h : env.get "OPENAI_API_KEY" = none ∨ env.get "OPENAI_API_KEY" = some "") :
    main env elapsedAt behave =
      ⟨"CONFIG_ERROR", 2, [], 0, 0, 0,
        "Missing required environment variable: OPENAI_API_KEY"⟩ := by
  have hv1 := env_str_not_required env "OPENAI_API_URL"
    (some "https://api.openai.com/v1/chat/completions")
  have hkey : env_str env "OPENAI_API_KEY" none true =
      .error "Missing required environment variable: OPENAI_API_KEY" := by
    rcases h with h | h <;> simp [env_str, h]
  simp [main, resolveConfig, readConfig, hv1, hkey, Bind.bind, Except.bind]

/-- C6 witness: the empty environment. -/
theorem missing_credential_config_error_witness :
    main envNoVars zeroClock alwaysHttp500 =
      ⟨"CONFIG_ERROR", 2, [], 0, 0, 0,
        "Missing required environment variable: OPENAI_API_KEY"⟩ :=
  missing_credential_config_error envNoVars zeroClock alwaysHttp500 (Or.inl rfl)

end OpenAIBenchmark

namespace OpenAIBenchmark

/-! ### C2: malformed `data:` frames are silently skipped -/

/-- A line the loop body skips leaves the decode of the surrounding lines
unchanged wherever it appears. -/
theorem parse_skip_line (tailErr : Option PyErr) (line : String)
    (h : line_step line = .skip) (pre suf : List String) :
    parse_sse_lines tailErr (pre ++ line :: suf) = parse_sse_lines tailErr (pre ++ suf) := by
  induction pre with
  | nil => simp [parse_sse_lines, h]
  | cons hd tl ih =>
    simp only [List.cons_append, parse_sse_lines]
    cases line_step hd <;> simp [ih]

/-- C2: a `data:` line whose payload fails JSON decoding (the hypotheses
state, in the decoder's own vocabulary, that the line survives the EOF
and prefix tests, is not the sentinel, and fails `json.loads`) is skipped
silently: no exception escapes, and the decode result over the whole
stream is the decode of the other lines. -/
theorem malformed_data_line_skipped (tailErr : Option PyErr) (pre suf : List String)
    (line : String)
    (h0 : line ≠ "")
    (h1 : pyStartswith (pyStrip line) "data:" = true)
    (h2 : pyStrip (pyDropChars (pyStrip line) 5) ≠ "[DONE]")
    (h3 : json_loads (pyStrip (pyDropChars (pyStrip line) 5)) = none) :
    parse_sse_lines tailErr (pre ++ line :: suf) = parse_sse_lines tailErr (pre ++ suf) := by
  have hs : line_step line = .skip := by
    simp [line_step, h0, h1, h2, h3]
  exact parse_skip_line tailErr line hs pre suf

/-- C2 witness: a malformed frame between a valid frame and the sentinel. -/
theorem malformed_data_line_skipped_witness :
    parse_sse_lines none ([exampleHiLine] ++ "data: \x7bnot json" :: ["data: [DONE]"]) =
      parse_sse_lines none ([exampleHiLine] ++ ["data: [DONE]"]) :=
  malformed_data_line_skipped none [exampleHiLine] ["data: [DONE]"] "data: \x7bnot json"
    (by decide) (by decide) (by decide) (by rfl)

/-! ### C10: a valid-JSON non-object payload raises -/

/-- C10: a `data:` line whose payload decodes to a non-object JSON value
makes the stream decoder raise (the `.get` call on the payload), and the
executor records the request as failed with an `Unexpected error` message;
the silent skip covers only JSON syntax errors. -/
theorem non_object_payload_raises (tailErr : Option PyErr) (line : String)
    (rest : List String) (idx total : Nat) (errBody : String) (d : ℚ) (v : JsonValue)
    (h0 : line ≠ "")
    (h1 : pyStartswith (pyStrip line) "data:" = true)
    (h2 : pyStrip (pyDropChars (pyStrip line) 5) ≠ "[DONE]")
    (h3 : json_loads (pyStrip (pyDropChars (pyStrip line) 5)) = some v)
    (h4 : v.isObj = false) :
    parse_sse_lines tailErr (line :: rest) = .error pyAttrGetErr ∧
    run_single_request idx total (.response 200 errBody ⟨line :: rest, tailErr⟩ d) =
      ⟨idx, false, d, 0, "Unexpected error: " ++ pyAttrGetErr.msg⟩ := by
  have hs : line_step line = .raise pyAttrGetErr := by
    cases v <;> simp_all [line_step, JsonValue.isObj]
  have hp : parse_sse_lines tailErr (line :: rest) = .error pyAttrGetErr := by
    simp [parse_sse_lines, hs]
  refine ⟨hp, ?_⟩
  simp [run_single_request, parse_sse_stream, hp, pyAttrGetErr]

/-- C10 witness: the frames `data: 5` and `data: [1]`. -/
theorem non_object_payload_raises_witness :
    parse_sse_lines none ["data: 5"] = .error pyAttrGetErr ∧
    run_single_request 1 5 (.response 200 "" ⟨["data: 5"], none⟩ 2) =
      ⟨1, false, 2, 0, "Unexpected error: " ++ pyAttrGetErr.msg⟩ :=
  non_object_payload_raises none "data: 5" [] 1 5 "" 2 (.num 5 0)
    (by decide) (by decide) (by decide) (by rfl) (by rfl)

/-! ### C3: the executor is total and shapes every outcome -/

/-- C3: for every transport behaviour the executor returns a
`RequestResult` carrying the request index; a 200 response whose body
decodes to `t` yields a success with `t.length` characters, and every
other behaviour yields a failure with zero characters, a non-empty
message, and the elapsed duration recorded at the failure point. -/
theorem run_single_request_total_contract (idx total : Nat) (b : TransportBehavior) :
    (run_single_request idx total b).index = idx ∧
    (∀ errBody body d t, b = .response 200 errBody body d →
      parse_sse_stream body = .ok t →
      run_single_request idx total b = ⟨idx, true, d, t.length, ""⟩) ∧
    (¬ b.succeeds →
      (run_single_request idx total b).ok = false ∧
      (run_single_request idx total b).chars = 0 ∧
      (run_single_request idx total b).error ≠ "" ∧
      (run_single_request idx total b).duration = b.elapsed) := by
  refine ⟨run_single_request_index idx total b, ?_, ?_⟩
  · rintro errBody body d t rfl hp
    simp [run_single_request, hp]
  · intro hf
    cases b with
    | response status errBody body dur =>
      by_cases hst : status = 200
      · subst hst
        cases hp : parse_sse_stream body with
        | ok t => exact absurd ⟨rfl, t, hp⟩ hf
        | error e =>
          obtain ⟨k, m⟩ := e
          cases k <;>
            simp_all [run_single_request, TransportBehavior.elapsed] <;>
            exact append_left_ne_empty (by decide)
      · have : status ≠ 200 := hst
        simp [run_single_request, this, TransportBehavior.elapsed]
        exact append_left_ne_empty (by decide)
    | httpExc code body dur =>
      refine ⟨rfl, rfl, ?_, rfl⟩
      exact append_left_ne_empty (data_append_ne_nil (data_append_ne_nil (by decide) (toString code)) ": ")
    | netExc msg dur =>
      refine ⟨rfl, rfl, ?_, rfl⟩
      exact append_left_ne_empty (by decide)
    | otherExc msg dur =>
      refine ⟨rfl, rfl, ?_, rfl⟩
      exact append_left_ne_empty (by decide)

/-- C3 witness: a transport-level failure. -/
theorem run_single_request_total_contract_witness :
    (run_single_request 1 5 (.netExc "boom" 2)).ok = false ∧
    (run_single_request 1 5 (.netExc "boom" 2)).chars = 0 ∧
    (run_single_request 1 5 (.netExc "boom" 2)).error ≠ "" ∧
    (run_single_request 1 5 (.netExc "boom" 2)).duration =
      (TransportBehavior.netExc "boom" 2).elapsed :=
  (run_single_request_total_contract 1 5 (.netExc "boom" 2)).2.2 (fun hs => hs)

end OpenAIBenchmark

namespace OpenAIBenchmark

/-! ### C4: summary counts -/

/-- The loop from index `idx` produces at most `rc + 1 - idx` results. -/
theorem benchLoopAux_length_le (mr : Int) (el : Nat → ℚ) (bh : Nat → TransportBehavior)
    (rc : Nat) : ∀ fuel idx, (benchLoopAux mr el bh rc fuel idx).length ≤ rc + 1 - idx := by
  intro fuel
  induction fuel with
  | zero => intro idx; simp [benchLoopAux]
  | succ n ih =>
    intro idx
    simp only [benchLoopAux]
    split
    · simp
    · split
      · simp
      · simp only [List.length_cons]
        have h1 := ih (idx + 1)
        rename_i hidx _
        omega

/-- The loop attempts at most the planned number of requests. -/
theorem benchLoop_length_le (rc : Nat) (mr : Int) (el : Nat → ℚ)
    (bh : Nat → TransportBehavior) : (benchLoop rc mr el bh).length ≤ rc := by
  have h := benchLoopAux_length_le mr el bh rc (rc + 1) 1
  simpa [benchLoop] using h

/-- `validateConfig` passes the configuration through unchanged and only
when the planned request count is positive. -/
theorem validateConfig_ok {c cfg : RunConfig} (h : validateConfig c = .ok cfg) :
    cfg = c ∧ 0 < c.request_count := by
  unfold validateConfig at h
  split_ifs at h with h1 h2 h3 h4 h5 <;> simp_all

/-- A resolved configuration has a positive planned request count. -/
theorem resolveConfig_request_count_pos {env : Env} {cfg : RunConfig}
    (h : resolveConfig env = .ok cfg) : 0 < cfg.request_count := by
  unfold resolveConfig at h
  cases hr : readConfig env with
  | error e => rw [hr] at h; simp [Bind.bind, Except.bind] at h
  | ok c =>
    rw [hr] at h
    simp only [Bind.bind, Except.bind] at h
    obtain ⟨rfl, hpos⟩ := validateConfig_ok h
    exact hpos

/-- C4: after every run, `success_count + failure_count = attempted`,
`attempted` is the length of the result sequence, `success_count` counts
the `ok` results, and (whenever the configuration resolved, i.e. the
benchmark loop actually ran) `attempted` is at most the planned request
count. -/
theorem summary_invariant (env : Env) (elapsedAt : Nat → ℚ)
    (behave : Nat → TransportBehavior) :
    ((main env elapsedAt behave).success_count + (main env elapsedAt behave).failure_count =
        (main env elapsedAt behave).attempted ∧
      (main env elapsedAt behave).attempted = (main env elapsedAt behave).results.length ∧
      (main env elapsedAt behave).success_count =
        ((main env elapsedAt behave).results.filter (fun r => r.ok)).length) ∧
    ∀ cfg, resolveConfig env = .ok cfg →
      ((main env elapsedAt behave).attempted : Int) ≤ cfg.request_count := by
  cases hc : resolveConfig env with
  | error msg =>
    refine ⟨by simp [main, hc], ?_⟩
    intro cfg hcfg
    simp at hcfg
  | ok cfg =>
    have hfl := List.length_filter_le (fun r : RequestResult => r.ok)
      (benchLoop cfg.request_count.toNat cfg.max_runtime_seconds elapsedAt behave)
    have hlen := benchLoop_length_le cfg.request_count.toNat cfg.max_runtime_seconds
      elapsedAt behave
    have hpos := resolveConfig_request_count_pos hc
    constructor
    · simp only [main, hc]
      split_ifs <;> refine ⟨?_, rfl, rfl⟩ <;> dsimp only <;> omega
    · intro cfg2 hcfg2
      obtain rfl : cfg = cfg2 := by cases hcfg2; rfl
      simp only [main, hc]
      split_ifs <;> dsimp only <;> omega

/-- C4 witness: five failing requests under the default configuration. -/
theorem summary_invariant_witness :
    ((main envKeyOnly zeroClock alwaysHttp500).attempted : Int) ≤ (5 : Int) ∧
    (main envKeyOnly zeroClock alwaysHttp500).success_count +
        (main envKeyOnly zeroClock alwaysHttp500).failure_count =
      (main envKeyOnly zeroClock alwaysHttp500).attempted := by
  have h := summary_invariant envKeyOnly zeroClock alwaysHttp500
  exact ⟨h.2 ⟨"https://api.openai.com/v1/chat/completions", "k", "gpt-4o-mini",
    "请简单回复：服务可用。", 5, 120, 0, 128, 0, 1 / 10⟩ rfl, h.1.1⟩

/-! ### C5: the runtime budget truncates the loop at a request boundary -/

/-- Under a positive budget that the clock meets at boundary `k`, the loop
started at any `idx ≤ k` only ever emits indices below `k`: the boundary
check breaks out before request `k` can run. -/
theorem benchLoopAux_mem_index_lt (mr : Int) (el : Nat → ℚ)
    (bh : Nat → TransportBehavior) (rc k : Nat)
    (hmr : 0 < mr) (hel : (mr : ℚ) ≤ el k) :
    ∀ fuel idx, idx ≤ k → ∀ r ∈ benchLoopAux mr el bh rc fuel idx, r.index < k := by
  intro fuel
  induction fuel with
  | zero => intro idx _ r hr; simp [benchLoopAux] at hr
  | succ n ih =>
    intro idx hik r hr
    simp only [benchLoopAux] at hr
    split at hr
    · simp at hr
    · split at hr
      · simp at hr
      · rename_i hbud
        have hne : idx ≠ k := by
          intro he
          exact hbud (he ▸ ⟨hmr, hel⟩)
        rcases List.mem_cons.mp hr with hhd | htl
        · rw [hhd, run_single_request_index]
          omega
        · exact ih (idx + 1) (by omega) r htl

/-- C5: with a configured (positive) budget, once the elapsed wall time at
request boundary `k ≥ 1` meets the budget, no request with index `k` or
later ever appears in the result sequence; concretely, with 5 planned
requests and a 5-second budget that the clock meets from boundary 3 on,
exactly requests 1 and 2 appear. -/
theorem max_runtime_truncates_loop (rc : Nat) (mr : Int) (el : Nat → ℚ)
    (bh : Nat → TransportBehavior) (k : Nat)
    (hk : 1 ≤ k) (hmr : 0 < mr) (hel : (mr : ℚ) ≤ el k) :
    (∀ r ∈ benchLoop rc mr el bh, r.index < k) ∧
    (benchLoop 5 5 clockStopsAfterTwo alwaysHttp500).map (fun r => r.index) = [1, 2] := by
  constructor
  · intro r hr
    exact benchLoopAux_mem_index_lt mr el bh rc k hmr hel (rc + 1) 1 hk r hr
  · decide

/-- C5 witness: the concrete truncated run. -/
theorem max_runtime_truncates_loop_witness :
    (benchLoop 5 5 clockStopsAfterTwo alwaysHttp500).map (fun r => r.index) = [1, 2] :=
  (max_runtime_truncates_loop 5 5 clockStopsAfterTwo alwaysHttp500 3
    (by decide) (by decide) (by decide)).2

end OpenAIBenchmark

namespace OpenAIBenchmark

/-! ### C1: the decoder computes the spec-side concatenation -/

/-- What one loop iteration does to a line, compared with the spec-side
reading of that line: terminating steps are exactly the spec-side
end-of-stream lines, a skipped line carries no frame token, and an
appended token is exactly the non-empty `choices[0].delta.content` string
of a well-formed frame. -/
theorem line_step_spec (l : String) :
    (line_step l = .eof → spec_line_ends_stream l = true) ∧
    (line_step l = .done → spec_line_ends_stream l = true) ∧
    (line_step l = .skip → spec_line_ends_stream l = false ∧ spec_frame_token l = none) ∧
    (∀ s, line_step l = .token s →
      spec_line_ends_stream l = false ∧ spec_frame_token l = some s) := by
  by_cases h0 : l = ""
  · simp [line_step, spec_line_ends_stream, h0]
  · by_cases h1 : pyStartswith (pyStrip l) "data:"
    · by_cases h2 : pyStrip (pyDropChars (pyStrip l) 5) = "[DONE]"
      · simp [line_step, spec_line_ends_stream, h0, h1, h2]
      · cases hj : json_loads (pyStrip (pyDropChars (pyStrip l) 5)) with
        | none =>
          simp [line_step, spec_line_ends_stream, spec_frame_token, h0, h1, h2, hj]
        | some payload =>
          cases payload with
          | obj fields =>
            cases hlc : objLookupLast fields "choices" with
            | none =>
              simp [line_step, spec_line_ends_stream, spec_frame_token, h0, h1, h2, hj,
                hlc, JsonValue.truthy]
            | some v =>
              cases v with
              | arr elems =>
                cases elems with
                | nil =>
                  simp [line_step, spec_line_ends_stream, spec_frame_token, h0, h1, h2,
                    hj, hlc, JsonValue.truthy]
                | cons first restc =>
                  cases first with
                  | obj ff =>
                    cases hld : objLookupLast ff "delta" with
                    | none =>
                      simp [line_step, spec_line_ends_stream, spec_frame_token, h0, h1,
                        h2, hj, hlc, hld, JsonValue.truthy, objLookupLast]
                    | some dv =>
                      cases dv with
                      | obj df =>
                        cases hlc2 : objLookupLast df "content" with
                        | none =>
                          simp [line_step, spec_line_ends_stream, spec_frame_token, h0,
                            h1, h2, hj, hlc, hld, hlc2, JsonValue.truthy]
                        | some cv =>
                          cases cv with
                          | str s =>
                            by_cases hs : s = "" <;>
                              simp [line_step, spec_line_ends_stream, spec_frame_token,
                                h0, h1, h2, hj, hlc, hld, hlc2, hs, JsonValue.truthy]
                          | _ =>
                            simp [line_step, spec_line_ends_stream, spec_frame_token,
                              h0, h1, h2, hj, hlc, hld, hlc2, JsonValue.truthy]
                      | _ =>
                        simp [line_step, spec_line_ends_stream, spec_frame_token, h0,
                          h1, h2, hj, hlc, hld, JsonValue.truthy]
                  | _ =>
                    simp [line_step, spec_line_ends_stream, spec_frame_token, h0, h1,
                      h2, hj, hlc, JsonValue.truthy]
              | _ =>
                simp [line_step, spec_line_ends_stream, spec_frame_token, h0, h1, h2,
                  hj, hlc, JsonValue.truthy] <;> split_ifs <;> simp_all
          | _ =>
            simp [line_step, spec_line_ends_stream, spec_frame_token, h0, h1, h2, hj]
    · simp [line_step, spec_line_ends_stream, spec_frame_token, h0, h1]

/-- Whenever the decoder returns text for a line list, that text is the
spec-side concatenation over those lines. -/
theorem parse_sse_refines_spec (tailErr : Option PyErr) :
    ∀ (lines : List String) (t : String),
      parse_sse_lines tailErr lines = .ok t → t = spec_decoded_text lines := by
  intro lines
  induction lines with
  | nil =>
    intro t h
    cases tailErr with
    | none =>
      simp only [parse_sse_lines] at h
      cases h
      rfl
    | some e => simp [parse_sse_lines] at h
  | cons l rest ih =>
    intro t h
    simp only [parse_sse_lines] at h
    cases hls : line_step l with
    | eof =>
      rw [hls] at h
      cases h
      have hends := (line_step_spec l).1 hls
      simp [spec_decoded_text, hends]
    | done =>
      rw [hls] at h
      cases h
      have hends := (line_step_spec l).2.1 hls
      simp [spec_decoded_text, hends]
    | skip =>
      rw [hls] at h
      obtain ⟨hends, htok⟩ := (line_step_spec l).2.2.1 hls
      simp [spec_decoded_text, hends, htok, ih t h]
    | token s =>
      rw [hls] at h
      cases hr : parse_sse_lines tailErr rest with
      | error e => rw [hr] at h; simp [Except.map] at h
      | ok t2 =>
        rw [hr] at h
        simp only [Except.map, Except.ok.injEq] at h
        obtain ⟨hends, htok⟩ := (line_step_spec l).2.2.2 s hls
        simp [spec_decoded_text, hends, htok, ← h, ih t2 hr]
    | raise e =>
      rw [hls] at h
      simp at h

/-- C1: for every SSE line source, the text the stream decoder returns is
the concatenation, in arrival order, of every non-empty
`choices[0].delta.content` string carried by a well-formed `data:` frame
preceding the `[DONE]` sentinel or end of input; in particular the worked
`Hi` body decodes to `"Hi"`, and an empty stream decodes to `""` without
error. -/
theorem parse_sse_stream_matches_spec :
    (∀ (b : SseBody) (t : String),
      parse_sse_stream b = .ok t → t = spec_decoded_text b.lines) ∧
    parse_sse_stream ⟨[exampleHiLine, "data: [DONE]"], none⟩ = .ok "Hi" ∧
    parse_sse_stream ⟨[], none⟩ = .ok "" := by
  refine ⟨?_, rfl, rfl⟩
  intro b t h
  exact parse_sse_refines_spec b.tailErr b.lines t h

/-- C1 witness: the worked example instantiates the refinement. -/
theorem parse_sse_stream_matches_spec_witness :
    "Hi" = spec_decoded_text [exampleHiLine, "data: [DONE]"] :=
  parse_sse_stream_matches_spec.1 ⟨[exampleHiLine, "data: [DONE]"], none⟩ "Hi"
    parse_sse_stream_matches_spec.2.1


end OpenAIBenchmark

namespace OpenAIBenchmark

/-! ### C7: the README rewrite relocates the block -/

theorem findSubIdx_of_isPrefixOf {pat cs : List Char} (h : pat.isPrefixOf cs = true) :
    findSubIdx pat cs = some 0 := by
  cases cs with
  | nil => simp [findSubIdx, h]
  | cons c cs2 => simp [findSubIdx, h]

theorem findSubIdx_cons_not_head {pat p0 : List Char} (hpat : pat = '<' :: p0)
    {c : Char} {cs : List Char} (hc : c ≠ '<') :
    findSubIdx pat (c :: cs) = (findSubIdx pat cs).map (· + 1) := by
  have hpre : pat.isPrefixOf (c :: cs) = false := by
    subst hpat
    simp [List.isPrefixOf]
    intro h
    exact absurd h.symm hc
  simp [findSubIdx, hpre]

theorem findSubIdx_no_marker {pat p0 : List Char} (hpat : pat = '<' :: p0)
    {cs : List Char} (h : '<' ∉ cs) : findSubIdx pat cs = none := by
  induction cs with
  | nil => subst hpat; simp [findSubIdx, List.isPrefixOf]
  | cons c cs2 ih =>
    have hc : c ≠ '<' := fun he => h (he ▸ List.mem_cons_self c cs2)
    rw [findSubIdx_cons_not_head hpat hc,
      ih (fun hm => h (List.mem_cons_of_mem c hm))]
    rfl

theorem findSubIdx_at_marker {pat p0 : List Char} (hpat : pat = '<' :: p0)
    (xs : List Char) (h : '<' ∉ xs) (ys : List Char) :
    findSubIdx pat (xs ++ (pat ++ ys)) = some xs.length := by
  induction xs with
  | nil =>
    have : pat.isPrefixOf (pat ++ ys) = true := by
      rw [List.isPrefixOf_iff_prefix]
      exact List.prefix_append pat ys
    simpa using findSubIdx_of_isPrefixOf this
  | cons x xs2 ih =>
    have hx : x ≠ '<' := fun he => h (he ▸ List.mem_cons_self x xs2)
    rw [List.cons_append, findSubIdx_cons_not_head hpat hx,
      ih (fun hm => h (List.mem_cons_of_mem x hm))]
    rfl

theorem start_marker_data :
    README_RESULT_START.data = '<' :: "!-- OPENAI_BENCHMARK_RESULTS_START -->".data := rfl

theorem end_marker_data :
    README_RESULT_END.data = '<' :: "!-- OPENAI_BENCHMARK_RESULTS_END -->".data := rfl

theorem removeOnce_decomp (p m q : List Char) (hp : '<' ∉ p) (hm : '<' ∉ m) :
    removeOnce (p ++ (README_RESULT_START.data ++
      (m ++ (README_RESULT_END.data ++ '\n' :: q)))) = some (p, q) := by
  unfold removeOnce
  rw [findSubIdx_at_marker start_marker_data p hp
    (m ++ (README_RESULT_END.data ++ '\n' :: q))]
  have hdrop1 : (p ++ (README_RESULT_START.data ++
      (m ++ (README_RESULT_END.data ++ '\n' :: q)))).drop
        (p.length + README_RESULT_START.data.length) =
      m ++ (README_RESULT_END.data ++ '\n' :: q) := by
    rw [← List.append_assoc, ← List.length_append, List.drop_left]
  simp only [hdrop1]
  rw [findSubIdx_at_marker end_marker_data m hm ('\n' :: q)]
  have hdrop2 : (m ++ (README_RESULT_END.data ++ '\n' :: q)).drop
      (m.length + README_RESULT_END.data.length) = '\n' :: q := by
    rw [← List.append_assoc, ← List.length_append, List.drop_left]
  simp only [hdrop2]
  have htake : (p ++ (README_RESULT_START.data ++
      (m ++ (README_RESULT_END.data ++ '\n' :: q)))).take p.length = p :=
    List.take_left p _
  simp only [htake]

theorem removeAllAux_of_none {cs : List Char} (h : removeOnce cs = none) :
    ∀ fuel, removeAllAux fuel cs = cs := by
  intro fuel
  cases fuel with
  | zero => rfl
  | succ n => simp [removeAllAux, h]

theorem removeOnce_no_start {cs : List Char} (h : '<' ∉ cs) : removeOnce cs = none := by
  unfold removeOnce
  rw [findSubIdx_no_marker start_marker_data h]

theorem removeAllAux_single_block (p m q : List Char)
    (hp : '<' ∉ p) (hm : '<' ∉ m) (hq : '<' ∉ q) (fuel : Nat) :
    removeAllAux (fuel + 1) (p ++ (README_RESULT_START.data ++
      (m ++ (README_RESULT_END.data ++ '\n' :: q)))) = p ++ q := by
  simp only [removeAllAux, removeOnce_decomp p m q hp hm]
  rw [removeAllAux_of_none (removeOnce_no_start hq)]

/-- C7 (amended): on a document decomposing into text before the start
marker, a delimited region, and text after the end marker (none of which
contain the marker-opening character `<`), the persistence step removes
the delimited region together with the newline after the end marker,
strips trailing whitespace from the concatenation of the surrounding
text, and appends a blank separator line and the freshly wrapped report
block at the end of the document; when the start marker is absent nothing
is removed and the block is appended after the trailing-whitespace-
stripped document. -/
theorem readme_tail_rewrite (pre mid post : String) (lines : List String)
    (hpre : '<' ∉ pre.data) (hmid : '<' ∉ mid.data) (hpost : '<' ∉ post.data) :
    (update_readme_tail
        (pre ++ README_RESULT_START ++ mid ++ README_RESULT_END ++ "\n" ++ post) lines =
      pyRstrip (pre ++ post) ++ "\n\n" ++
        (README_RESULT_START ++ "\n" ++ pyStrip (joinWithNewline lines) ++ "\n" ++
          README_RESULT_END ++ "\n")) ∧
    (∀ content : String, findSubIdx README_RESULT_START.data content.data = none →
      update_readme_tail content lines =
        pyRstrip content ++ "\n\n" ++
          (README_RESULT_START ++ "\n" ++ pyStrip (joinWithNewline lines) ++ "\n" ++
            README_RESULT_END ++ "\n")) := by
  constructor
  · unfold update_readme_tail
    have hdata : (pre ++ README_RESULT_START ++ mid ++ README_RESULT_END ++ "\n" ++ post).data =
        pre.data ++ (README_RESULT_START.data ++
          (mid.data ++ (README_RESULT_END.data ++ '\n' :: post.data))) := by
      simp [String.data_append, List.append_assoc]
    rw [hdata]
    rw [removeAllAux_single_block pre.data mid.data post.data hpre hmid hpost _]
    have hmk : String.mk (pre.data ++ post.data) = pre ++ post := by
      rw [← String.data_append]
    rw [hmk]
  · intro content h
    unfold update_readme_tail
    rw [removeAllAux_of_none (by unfold removeOnce; rw [h])]

/-- C7 counterexample: on a document whose delimited region sits between
a heading and a tail, the step does not leave the text around the markers
byte-identical: the rebuilt block moves behind the tail, so the updated
document no longer ends with the tail text and the heading is no longer
followed by the start marker. -/
theorem readme_tail_not_in_place_cex :
    update_readme_tail cexDoc ["X"] =
      "A\nTail\n\n" ++ README_RESULT_START ++ "\nX\n" ++ README_RESULT_END ++ "\n" ∧
    pyEndswith cexDoc "Tail\n" = true ∧
    pyEndswith (update_readme_tail cexDoc ["X"]) "Tail\n" = false ∧
    pyStartswith (update_readme_tail cexDoc ["X"]) ("A\n" ++ README_RESULT_START) = false := by
  decide

/-- C7 witness: the amended characterization at a concrete document. -/
theorem readme_tail_rewrite_witness :
    update_readme_tail
        ("A\n" ++ README_RESULT_START ++ "\nold\n" ++ README_RESULT_END ++ "\n" ++ "Tail\n")
        ["X"] =
      pyRstrip ("A\n" ++ "Tail\n") ++ "\n\n" ++
        (README_RESULT_START ++ "\n" ++ pyStrip (joinWithNewline ["X"]) ++ "\n" ++
          README_RESULT_END ++ "\n") :=
  (readme_tail_rewrite "A\n" "\nold\n" "Tail\n" ["X"]
    (by decide) (by decide) (by decide)).1


end OpenAIBenchmark
